import Mathlib

/-!
# Flux (Kora Rent Guardian) — verification of the core pipeline

Shallow embedding of the core modules of the repository:

* the Eligibility Judge (`judge` module: `judgeAccount`, `judgeAllAccounts`,
  `getEligibleAccounts`, `addToWhitelist`),
* the Reclamation Executioner (`executioner` module: `reclaimAccount`,
  `reclaimAllEligible`),
* the Scanner's reconciliation step and `determineInitialStatus`
  (`scanner` module).

Modelling conventions:

* SOL amounts and timestamps (milliseconds since epoch) are rationals.
* The durable store (Prisma) is an explicit `Store` value threaded through
  each operation; `create` on the activity log appends at the end.
* Human-readable reason and message strings are modelled as structured data
  (`Reason`, `ExecMessage`) carrying the numbers the source interpolates
  into each template; string formatting itself is presentation only.
* The ledger gateway calls of the executioner (`connection.getBalance`,
  `sendAndConfirmTransaction`) are supplied by the environment as functions
  returning `Except`, whose `error` case is handled by the source's
  surrounding try/catch.  Store operations are modelled as total.
* `judgeAccount` reads the wall clock (`Date.now()`); the clock is an
  explicit `now` argument of the embedding.
-/

namespace Flux

/-- `TX_FEE_LAMPORTS` from `config.ts`. -/
def TX_FEE_LAMPORTS : ℕ := 5000

/-- `LAMPORTS_PER_SOL` from `config.ts`. -/
def LAMPORTS_PER_SOL : ℕ := 1000000000

/-- `TX_FEE_SOL = TX_FEE_LAMPORTS / LAMPORTS_PER_SOL` from `judge.ts`. -/
def TX_FEE_SOL : ℚ := (TX_FEE_LAMPORTS : ℚ) / (LAMPORTS_PER_SOL : ℚ)

/-- `USER_FUND_TOLERANCE = 1.01` from `judge.ts`. -/
def USER_FUND_TOLERANCE : ℚ := 101 / 100

/-- `DEFAULT_MIN_AGE_DAYS = 30` from `judge.ts`. -/
def DEFAULT_MIN_AGE_DAYS : ℚ := 30

/-- `1000 * 60 * 60 * 24`, the millisecond/day conversion used in the age check. -/
def MS_PER_DAY : ℚ := 1000 * 60 * 60 * 24

/-- Stored account `status` values (`SponsoredAccount.status` column). -/
inductive AccountStatus
  | ACTIVE
  | PROTECTED
  | ELIGIBLE
  | SKIP
  | WHITELISTED
  | RECLAIMED
deriving DecidableEq

/-- One `SponsoredAccount` row.  `balance`, `rentExemptMin` in SOL;
`lastActivity`, `detectedAt` in milliseconds since epoch. -/
structure SponsoredAccount where
  address : String
  balance : ℚ
  rentExemptMin : ℚ
  lastActivity : ℚ
  status : AccountStatus
  detectedAt : ℚ
deriving DecidableEq

/-- `JudgmentSettings` from `judge.ts`. -/
structure JudgmentSettings where
  minAgeDays : ℚ
  dryRunMode : Bool
deriving DecidableEq

/-- `JudgmentStatus` from `judge.ts`. -/
inductive JudgmentStatus
  | ELIGIBLE
  | SKIP
  | PROTECTED
  | ACTIVE
  | WHITELISTED
deriving DecidableEq

/-- The `failedCheck` tag of a `JudgmentResult`. -/
inductive FailedCheck
  | PROFIT
  | USER_FUNDS
  | AGE
  | WHITELIST
deriving DecidableEq

/-- Reason strings, modelled as structured data carrying the interpolated
numbers of each template of the source. -/
inductive Reason
  | skippedUnprofitable (balance txFee : ℚ)
  | protectedUserFunds (balance rentMin excess : ℚ)
  | activeTooYoung (ageDaysFloor : ℤ) (minAge : ℚ) (daysRemaining : ℤ)
  | whitelistedByOperator
  | eligibleAllChecks (ageDays potentialRecovery : ℚ)
  | simulationWouldReclaim (amount : ℚ)
  | reclaimedSuccessfully (amount : ℚ)
  | errorText (msg : String)
  | scanComplete (newCount updatedCount : ℕ)
deriving DecidableEq

/-- `JudgmentResult` from `judge.ts`. -/
structure JudgmentResult where
  status : JudgmentStatus
  reason : Reason
  failedCheck : Option FailedCheck
  address : String
  balance : ℚ
  potentialRecovery : ℚ
deriving DecidableEq

/-- The string form of a `JudgmentStatus` (the TS values are plain strings;
`reclaimAccount` places the fresh verdict's status in its `error` field). -/
def JudgmentStatus.text : JudgmentStatus → String
  | .ELIGIBLE => "ELIGIBLE"
  | .SKIP => "SKIP"
  | .PROTECTED => "PROTECTED"
  | .ACTIVE => "ACTIVE"
  | .WHITELISTED => "WHITELISTED"

/-- `accountAgeDays` local of `judgeAccount`:
`(Date.now() - lastActivity.getTime()) / (1000*60*60*24)`. -/
def accountAgeDays (account : SponsoredAccount) (now : ℚ) : ℚ :=
  (now - account.lastActivity) / MS_PER_DAY

/-- `minAgeDays` local of `judgeAccount`:
`settings.minAgeDays || DEFAULT_MIN_AGE_DAYS` — a configured value of `0` is
falsy in JavaScript, so it silently falls back to the default of 30. -/
def effectiveMinAgeDays (settings : JudgmentSettings) : ℚ :=
  if settings.minAgeDays = 0 then DEFAULT_MIN_AGE_DAYS else settings.minAgeDays

/-- `judgeAccount` from `judge.ts`: the ordered 4-check verification chain.
`now` is the value of `Date.now()` at the moment of the call. -/
def judgeAccount (account : SponsoredAccount) (settings : JudgmentSettings)
    (whitelist : List String) (now : ℚ) : JudgmentResult :=
  let potentialRecovery := max 0 (account.balance - TX_FEE_SOL)
  if account.balance ≤ TX_FEE_SOL then
    { status := .SKIP
      reason := .skippedUnprofitable account.balance TX_FEE_SOL
      failedCheck := some .PROFIT
      address := account.address
      balance := account.balance
      potentialRecovery := 0 }
  else if account.balance > account.rentExemptMin * USER_FUND_TOLERANCE then
    { status := .PROTECTED
      reason := .protectedUserFunds account.balance account.rentExemptMin
        (account.balance - account.rentExemptMin)
      failedCheck := some .USER_FUNDS
      address := account.address
      balance := account.balance
      potentialRecovery := potentialRecovery }
  else if accountAgeDays account now < effectiveMinAgeDays settings then
    { status := .ACTIVE
      reason := .activeTooYoung ⌊accountAgeDays account now⌋
        (effectiveMinAgeDays settings)
        ⌈effectiveMinAgeDays settings - accountAgeDays account now⌉
      failedCheck := some .AGE
      address := account.address
      balance := account.balance
      potentialRecovery := potentialRecovery }
  else if account.address ∈ whitelist then
    { status := .WHITELISTED
      reason := .whitelistedByOperator
      failedCheck := some .WHITELIST
      address := account.address
      balance := account.balance
      potentialRecovery := potentialRecovery }
  else
    { status := .ELIGIBLE
      reason := .eligibleAllChecks (accountAgeDays account now) potentialRecovery
      failedCheck := none
      address := account.address
      balance := account.balance
      potentialRecovery := potentialRecovery }

/-- The standard token-account rent minimum used throughout the demo data. -/
def RENT_MINIMUM : ℚ := 203928 / 100000000

/-- Default settings: the 30-day idle threshold. -/
def settings30 : JudgmentSettings := { minAgeDays := 30, dryRunMode := true }

/-- An account whose positive balance sits below the transaction fee while
exceeding a zero rent floor: the profit check fires before the user-funds
check. -/
def c1Account : SponsoredAccount :=
  { address := "C1Acct"
    balance := 4 / 1000000000
    rentExemptMin := 0
    lastActivity := 0
    status := .ACTIVE
    detectedAt := 0 }

/-- The 1.25 SOL account of the spec's scenario list. -/
def c1WitnessAccount : SponsoredAccount :=
  { address := "C1Wit"
    balance := 5 / 4
    rentExemptMin := RENT_MINIMUM
    lastActivity := 0
    status := .ACTIVE
    detectedAt := 0 }

/-- A whitelisted dust account whose balance is below the transaction fee. -/
def c5Account : SponsoredAccount :=
  { address := "C5Acct"
    balance := 1 / 1000000
    rentExemptMin := RENT_MINIMUM
    lastActivity := 0
    status := .ACTIVE
    detectedAt := 0 }

/-- A rent-floor account used to exhibit the Judge's clock dependence. -/
def c6Account : SponsoredAccount :=
  { address := "C6Acct"
    balance := RENT_MINIMUM
    rentExemptMin := RENT_MINIMUM
    lastActivity := 0
    status := .ACTIVE
    detectedAt := 0 }

/-- `ActivityLog.action` values. -/
inductive LogAction
  | SCAN
  | RECLAIM
  | SKIP
deriving DecidableEq

/-- `ActivityLog.mode` values. -/
inductive Mode
  | REAL
  | SIMULATION
deriving DecidableEq

/-- One `ActivityLog` row. -/
structure LogEntry where
  action : LogAction
  account : String
  amount : ℚ
  mode : Mode
  reason : Reason
  txSignature : Option String
deriving DecidableEq

/-- One `Whitelist` row. -/
structure WhitelistEntry where
  address : String
  note : Option String
deriving DecidableEq

/-- The durable store: `SponsoredAccount` rows, the append-only activity log
and the whitelist.  The settings table is read through `getJudgmentSettings`;
its parsed value is the `settings` of the environment. -/
structure Store where
  accounts : List SponsoredAccount
  activityLog : List LogEntry
  whitelist : List WhitelistEntry
deriving DecidableEq

/-- `prisma.activityLog.create`: append one row at the end of the log. -/
def appendLog (store : Store) (entry : LogEntry) : Store :=
  { store with activityLog := store.activityLog ++ [entry] }

/-- The whitelist as the list of addresses handed to the Judge
(`whitelistEntries.map(w => w.address)`). -/
def storeWhitelistAddresses (store : Store) : List String :=
  store.whitelist.map fun w => w.address

/-- The `message` strings of `ReclaimResult`, as structured data. -/
inductive ExecMessage
  | accountNotFound
  | cannotReclaim (reason : Reason)
  | simulationSuccess (amount : ℚ) (address : String)
  | noPrivateKeyConfigured
  | alreadyEmpty
  | balanceTooLow
  | reclaimSuccess (amount : ℚ) (address : String)
  | failedToReclaim (msg : String)
deriving DecidableEq

/-- `ReclaimResult` from `executioner.ts`. -/
structure ReclaimResult where
  success : Bool
  address : String
  mode : Mode
  amount : ℚ
  txSignature : Option String
  explorerUrl : Option String
  message : ExecMessage
  error : Option String
deriving DecidableEq

/-- `BatchReclaimResult` from `executioner.ts`. -/
structure BatchReclaimResult where
  total : ℕ
  successful : ℕ
  failed : ℕ
  totalReclaimed : ℚ
  mode : Mode
  results : List ReclaimResult
deriving DecidableEq

/-- `getExplorerUrl` from `solana.ts`, at the default devnet endpoint. -/
def getExplorerUrl (sig : String) : String :=
  "https://explorer.solana.com/tx/" ++ sig ++ "?cluster=devnet"

/-- Error code `ACCOUNT_NOT_FOUND`. -/
def ERR_ACCOUNT_NOT_FOUND : String := "ACCOUNT_NOT_FOUND"

/-- Error code `NO_PRIVATE_KEY`. -/
def ERR_NO_PRIVATE_KEY : String := "NO_PRIVATE_KEY"

/-- Error code `INSUFFICIENT_BALANCE`. -/
def ERR_INSUFFICIENT_BALANCE : String := "INSUFFICIENT_BALANCE"

/-- The executioner's environment: the clock, the parsed settings, the
operator credential from `config`, and the two ledger-gateway calls made by
the real-mode path (`connection.getBalance`, `sendAndConfirmTransaction`).
Either gateway call may fail; the failure is handled by the source's
surrounding try/catch. -/
structure ExecEnv where
  now : ℚ
  settings : JudgmentSettings
  operatorPrivateKey : Option String
  operatorPubkey : String
  getBalance : String → Except String ℕ
  sendTransfer : String → String → ℕ → Except String String

/-- Step 1 of `reclaimAccount` ("Re-validate with Judge"): re-run the Judge
on the stored record with the current settings and the current whitelist. -/
def freshJudgment (env : ExecEnv) (store : Store)
    (account : SponsoredAccount) : JudgmentResult :=
  judgeAccount account env.settings (storeWhitelistAddresses store) env.now

/-- `reclaimAccount` from `executioner.ts`.  The store is threaded
explicitly; the gateway is reached only on the real-mode path.  Store
operations are modelled as total, so the catch-branch of the source shows up
at the two gateway `Except.error` cases. -/
def reclaimAccount (env : ExecEnv) (address : String) (dryRun : Bool)
    (store : Store) : ReclaimResult × Store :=
  match store.accounts.find? (fun a => a.address = address) with
  | none =>
      ({ success := false
         address := address
         mode := if dryRun then .SIMULATION else .REAL
         amount := 0
         txSignature := none
         explorerUrl := none
         message := .accountNotFound
         error := some ERR_ACCOUNT_NOT_FOUND }, store)
  | some account =>
      let judgment := freshJudgment env store account
      if judgment.status ≠ .ELIGIBLE then
        ({ success := false
           address := address
           mode := if dryRun then .SIMULATION else .REAL
           amount := 0
           txSignature := none
           explorerUrl := none
           message := .cannotReclaim judgment.reason
           error := some judgment.status.text },
         appendLog store
           { action := .SKIP
             account := address
             amount := account.balance
             mode := if dryRun then .SIMULATION else .REAL
             reason := judgment.reason
             txSignature := none })
      else if dryRun then
        ({ success := true
           address := address
           mode := .SIMULATION
           amount := judgment.potentialRecovery
           txSignature := none
           explorerUrl := none
           message := .simulationSuccess judgment.potentialRecovery address
           error := none },
         appendLog store
           { action := .RECLAIM
             account := address
             amount := judgment.potentialRecovery
             mode := .SIMULATION
             reason := .simulationWouldReclaim judgment.potentialRecovery
             txSignature := none })
      else
        match env.operatorPrivateKey with
        | none =>
            ({ success := false
               address := address
               mode := .SIMULATION
               amount := 0
               txSignature := none
               explorerUrl := none
               message := .noPrivateKeyConfigured
               error := some ERR_NO_PRIVATE_KEY }, store)
        | some _ =>
            match env.getBalance address with
            | .error e =>
                ({ success := false
                   address := address
                   mode := if dryRun then .SIMULATION else .REAL
                   amount := 0
                   txSignature := none
                   explorerUrl := none
                   message := .failedToReclaim e
                   error := some e },
                 appendLog store
                   { action := .SKIP
                     account := address
                     amount := 0
                     mode := if dryRun then .SIMULATION else .REAL
                     reason := .errorText e
                     txSignature := none })
            | .ok balanceLamports =>
                if balanceLamports = 0 then
                  ({ success := true
                     address := address
                     mode := .REAL
                     amount := 0
                     txSignature := none
                     explorerUrl := none
                     message := .alreadyEmpty
                     error := none },
                   { store with accounts := store.accounts.map fun x =>
                       if x.address = address then
                         { x with status := .RECLAIMED, balance := 0 }
                       else x })
                else
                  let transferAmount : ℤ := (balanceLamports : ℤ) - (TX_FEE_LAMPORTS : ℤ)
                  if transferAmount ≤ 0 then
                    ({ success := false
                       address := address
                       mode := .REAL
                       amount := 0
                       txSignature := none
                       explorerUrl := none
                       message := .balanceTooLow
                       error := some ERR_INSUFFICIENT_BALANCE }, store)
                  else
                    match env.sendTransfer address env.operatorPubkey transferAmount.toNat with
                    | .error e =>
                        ({ success := false
                           address := address
                           mode := if dryRun then .SIMULATION else .REAL
                           amount := 0
                           txSignature := none
                           explorerUrl := none
                           message := .failedToReclaim e
                           error := some e },
                         appendLog store
                           { action := .SKIP
                             account := address
                             amount := 0
                             mode := if dryRun then .SIMULATION else .REAL
                             reason := .errorText e
                             txSignature := none })
                    | .ok txSig =>
                        let reclaimedAmount : ℚ := (transferAmount : ℚ) / (LAMPORTS_PER_SOL : ℚ)
                        ({ success := true
                           address := address
                           mode := .REAL
                           amount := reclaimedAmount
                           txSignature := some txSig
                           explorerUrl := some (getExplorerUrl txSig)
                           message := .reclaimSuccess reclaimedAmount address
                           error := none },
                         appendLog
                           { store with accounts := store.accounts.map fun x =>
                               if x.address = address then
                                 { x with
                                   status := .RECLAIMED
                                   balance := 0
                                   lastActivity := env.now }
                               else x }
                           { action := .RECLAIM
                             account := address
                             amount := reclaimedAmount
                             mode := .REAL
                             reason := .reclaimedSuccessfully reclaimedAmount
                             txSignature := some txSig })

/-- The `status: 'ELIGIBLE'` query opening `reclaimAllEligible`. -/
def eligibleStoredAccounts (store : Store) : List SponsoredAccount :=
  store.accounts.filter fun a => a.status = .ELIGIBLE

/-- The loop state of `reclaimAllEligible`'s for-loop: the threaded store,
the pushed results, and the three accumulators. -/
structure BatchState where
  store : Store
  results : List ReclaimResult
  successful : ℕ
  failed : ℕ
  totalReclaimed : ℚ

/-- The for-loop of `reclaimAllEligible`: invoke `reclaimAccount`
sequentially for each snapshot record, accumulating
`successful`/`failed`/`totalReclaimed`.  (The real-mode 500 ms inter-attempt
delay has no effect on the state.) -/
def reclaimBatchGo (env : ExecEnv) (dryRun : Bool) :
    List SponsoredAccount → BatchState → BatchState
  | [], st => st
  | account :: rest, st =>
      let step := reclaimAccount env account.address dryRun st.store
      let st' :=
        if step.1.success then
          { store := step.2
            results := st.results ++ [step.1]
            successful := st.successful + 1
            failed := st.failed
            totalReclaimed := st.totalReclaimed + step.1.amount }
        else
          { store := step.2
            results := st.results ++ [step.1]
            successful := st.successful
            failed := st.failed + 1
            totalReclaimed := st.totalReclaimed }
      reclaimBatchGo env dryRun rest st'

/-- `reclaimAllEligible` from `executioner.ts`: snapshot every stored
`ELIGIBLE` record, then reclaim each sequentially. -/
def reclaimAllEligible (env : ExecEnv) (dryRun : Bool) (store : Store) :
    BatchReclaimResult × Store :=
  let eligibleAccounts := eligibleStoredAccounts store
  let final := reclaimBatchGo env dryRun eligibleAccounts
    { store := store, results := [], successful := 0, failed := 0, totalReclaimed := 0 }
  ({ total := eligibleAccounts.length
     successful := final.successful
     failed := final.failed
     totalReclaimed := final.totalReclaimed
     mode := if dryRun then .SIMULATION else .REAL
     results := final.results }, final.store)

/-- Conversion of a Judge verdict into the stored `status` column (the TS
values are the same strings). -/
def JudgmentStatus.toAccountStatus : JudgmentStatus → AccountStatus
  | .ELIGIBLE => .ELIGIBLE
  | .SKIP => .SKIP
  | .PROTECTED => .PROTECTED
  | .ACTIVE => .ACTIVE
  | .WHITELISTED => .WHITELISTED

/-- `prisma.sponsoredAccount.update({ where: { address }, data: { status } })`;
`address` is the unique key of the table. -/
def updateAccountStatus (accounts : List SponsoredAccount) (addr : String)
    (st : AccountStatus) : List SponsoredAccount :=
  accounts.map fun a => if a.address = addr then { a with status := st } else a

/-- The `status: { not: 'RECLAIMED' }` query of `judgeAllAccounts` and
`getEligibleAccounts`. -/
def nonReclaimedAccounts (store : Store) : List SponsoredAccount :=
  store.accounts.filter fun a => a.status ≠ .RECLAIMED

/-- The result counters of `judgeAllAccounts`.  `protectedCount` renders the
source's `protected` field, a keyword in Lean. -/
structure JudgeAllCounts where
  total : ℕ
  eligible : ℕ
  protectedCount : ℕ
  active : ℕ
  skipped : ℕ
  whitelisted : ℕ
deriving DecidableEq

/-- The `switch` of `judgeAllAccounts`, bumping one counter per verdict. -/
def bumpCounts (res : JudgeAllCounts) : JudgmentStatus → JudgeAllCounts
  | .ELIGIBLE => { res with eligible := res.eligible + 1 }
  | .PROTECTED => { res with protectedCount := res.protectedCount + 1 }
  | .ACTIVE => { res with active := res.active + 1 }
  | .SKIP => { res with skipped := res.skipped + 1 }
  | .WHITELISTED => { res with whitelisted := res.whitelisted + 1 }

/-- The for-loop of `judgeAllAccounts`: judge each snapshot record and
persist the fresh status under its address. -/
def judgeAllGo (settings : JudgmentSettings) (whitelist : List String) (now : ℚ) :
    List SponsoredAccount → Store → JudgeAllCounts → Store × JudgeAllCounts
  | [], store, res => (store, res)
  | account :: rest, store, res =>
      let judgment := judgeAccount account settings whitelist now
      let store' := { store with
        accounts := updateAccountStatus store.accounts account.address
          judgment.status.toAccountStatus }
      judgeAllGo settings whitelist now rest store' (bumpCounts res judgment.status)

/-- `judgeAllAccounts` from `judge.ts`: judge every non-`RECLAIMED` record
with the current settings and whitelist, persisting updated statuses. -/
def judgeAllAccounts (settings : JudgmentSettings) (now : ℚ) (store : Store) :
    Store × JudgeAllCounts :=
  let whitelist := storeWhitelistAddresses store
  let accounts := nonReclaimedAccounts store
  judgeAllGo settings whitelist now accounts store
    { total := accounts.length
      eligible := 0
      protectedCount := 0
      active := 0
      skipped := 0
      whitelisted := 0 }

/-- `getEligibleAccounts` from `judge.ts`: the judgments of the
non-`RECLAIMED` records whose fresh verdict is `ELIGIBLE`. -/
def getEligibleAccounts (settings : JudgmentSettings) (now : ℚ)
    (store : Store) : List JudgmentResult :=
  (nonReclaimedAccounts store).filterMap fun account =>
    let judgment := judgeAccount account settings (storeWhitelistAddresses store) now
    if judgment.status = .ELIGIBLE then some judgment else none

/-- `addToWhitelist` from `judge.ts`: upsert the whitelist row, then
`updateMany` every matching account row to status `WHITELISTED` —
unconditionally, whatever the current stored status. -/
def addToWhitelist (address : String) (note : Option String) (store : Store) :
    Store :=
  { store with
    whitelist :=
      if store.whitelist.any fun w => w.address = address then
        store.whitelist.map fun w =>
          if w.address = address then { w with note := note } else w
      else
        store.whitelist ++ [{ address := address, note := note }]
    accounts := store.accounts.map fun a =>
      if a.address = address then { a with status := .WHITELISTED } else a }

/-- The current on-ledger state of an account, as produced by
`getAccountCurrentState` in `scanner.ts`.  `existsOnChain` renders the
source's `exists` field, a keyword in Lean. -/
structure AccountCurrentState where
  balance : ℚ
  rentExemptMin : ℚ
  existsOnChain : Bool
deriving DecidableEq

/-- `determineInitialStatus` from `scanner.ts`: the conservative first
classification (`!state.exists || state.balance === 0` → `RECLAIMED`;
`balance > rentExemptMin * 1.5` → `PROTECTED`; otherwise `ACTIVE`). -/
def determineInitialStatus (state : AccountCurrentState) : AccountStatus :=
  if state.existsOnChain = false ∨ state.balance = 0 then .RECLAIMED
  else if state.balance > state.rentExemptMin * (3 / 2) then .PROTECTED
  else .ACTIVE

/-- One discovered account (`DiscoveredAccount` in `scanner.ts`). -/
structure DiscoveredAccount where
  address : String
  balance : ℚ
  rentExemptMin : ℚ
  createdAt : ℚ
deriving DecidableEq

/-- The per-account reconciliation step of `scanForSponsoredAccounts`
(step 3 of the scan): update an existing record's balance and
`lastActivity`, promoting it to `RECLAIMED` exactly when the current balance
is zero and otherwise preserving the found record's status; or create a
fresh record classified by `determineInitialStatus`.  `now` is `new Date()`
at the write; `currentState` is the gateway's answer for the account's
current on-ledger state. -/
def reconcileDiscoveredAccount (now : ℚ) (account : DiscoveredAccount)
    (currentState : AccountCurrentState) (store : Store) : Store :=
  match store.accounts.find? (fun a => a.address = account.address) with
  | some existing =>
      { store with accounts := store.accounts.map fun x =>
          if x.address = account.address then
            { x with
              balance := currentState.balance
              lastActivity := now
              status := if currentState.balance = 0 then .RECLAIMED else existing.status }
          else x }
  | none =>
      { store with accounts := store.accounts ++
          [{ address := account.address
             balance := currentState.balance
             rentExemptMin := currentState.rentExemptMin
             lastActivity := account.createdAt
             status := determineInitialStatus currentState
             detectedAt := now }] }

/-- Every stored record at `addr` carries the terminal status `RECLAIMED`.
With the table's unique key on `address` this says exactly that the
account's stored status is `RECLAIMED`. -/
def ReclaimedAt (addr : String) (store : Store) : Prop :=
  ∀ a ∈ store.accounts, a.address = addr → a.status = .RECLAIMED

/-- Day-100 clock used by the concrete scenarios. -/
def now100 : ℚ := 100 * MS_PER_DAY

/-- Broadcast failure message of the concrete gateway stub. -/
def gatewayErrMsg : String := "gateway unreachable"

/-- A concrete environment in mock configuration: no operator credential;
gateway stubs (never reached on the simulated paths). -/
def envSim : ExecEnv :=
  { now := now100
    settings := settings30
    operatorPrivateKey := none
    operatorPubkey := "Operator11111111111111111111111111111111111"
    getBalance := fun _ => .ok 0
    sendTransfer := fun _ _ _ => .error gatewayErrMsg }

/-- A stored-`ELIGIBLE` dust account, idle for 92 days at `now100` — its
fresh verdict is `ELIGIBLE` (the spec's scenario account). -/
def dustAccount : SponsoredAccount :=
  { address := "2dSTxxxxxxxxxxxxxxxxxxxxxxxxxxxxxxDust01"
    balance := RENT_MINIMUM
    rentExemptMin := RENT_MINIMUM
    lastActivity := 8 * MS_PER_DAY
    status := .ELIGIBLE
    detectedAt := 0 }

/-- A stored-`ELIGIBLE` account touched five days before `now100`: its stored
status is stale, the fresh verdict is `ACTIVE`. -/
def staleAccount : SponsoredAccount :=
  { address := "AcT1xxxxxxxxxxxxxxxxxxxxxxxxxxxxxxActv01"
    balance := RENT_MINIMUM
    rentExemptMin := RENT_MINIMUM
    lastActivity := 95 * MS_PER_DAY
    status := .ELIGIBLE
    detectedAt := 0 }

/-- Store holding the single fresh-eligible dust account. -/
def storeDust : Store :=
  { accounts := [dustAccount], activityLog := [], whitelist := [] }

/-- Store holding the single stale-eligible account. -/
def storeStale : Store :=
  { accounts := [staleAccount], activityLog := [], whitelist := [] }

/-- A fresh-eligible dust account at a given address. -/
def dust9 (addr : String) : SponsoredAccount :=
  { address := addr
    balance := RENT_MINIMUM
    rentExemptMin := RENT_MINIMUM
    lastActivity := 8 * MS_PER_DAY
    status := .ELIGIBLE
    detectedAt := 0 }

/-- A stale stored-`ELIGIBLE` account (fresh verdict `ACTIVE`) at a given
address. -/
def stale9 (addr : String) : SponsoredAccount :=
  { address := addr
    balance := RENT_MINIMUM
    rentExemptMin := RENT_MINIMUM
    lastActivity := 95 * MS_PER_DAY
    status := .ELIGIBLE
    detectedAt := 0 }

/-- Nine distinct addresses for the batch scenario. -/
def addrs9 : List String :=
  ["B1", "B2", "B3", "B4", "B5", "B6", "B7", "B8", "B9"]

/-- Store with exactly nine stored-`ELIGIBLE` accounts, all fresh-eligible. -/
def store9 : Store :=
  { accounts := addrs9.map dust9, activityLog := [], whitelist := [] }

/-- Store with exactly nine stored-`ELIGIBLE` accounts, all stale (their
fresh verdict is `ACTIVE`). -/
def store9stale : Store :=
  { accounts := addrs9.map stale9, activityLog := [], whitelist := [] }

/-- An already-reclaimed account. -/
def reclaimedAccount : SponsoredAccount :=
  { address := "RcL1xxxxxxxxxxxxxxxxxxxxxxxxxxxxxxRclm01"
    balance := 0
    rentExemptMin := RENT_MINIMUM
    lastActivity := 0
    status := .RECLAIMED
    detectedAt := 0 }

/-- Store holding the single reclaimed account. -/
def storeReclaimed : Store :=
  { accounts := [reclaimedAccount], activityLog := [], whitelist := [] }

/-- A scanner discovery matching the dust account's address. -/
def discoveredDust : DiscoveredAccount :=
  { address := "2dSTxxxxxxxxxxxxxxxxxxxxxxxxxxxxxxDust01"
    balance := RENT_MINIMUM
    rentExemptMin := RENT_MINIMUM
    createdAt := 0 }

/-- A current on-ledger state reporting the account as closed. -/
def curStateZero : AccountCurrentState :=
  { balance := 0, rentExemptMin := RENT_MINIMUM, existsOnChain := false }

/-- Path lemma for `reclaimAccount`: no stored record. -/
theorem reclaim_path_notFound (env : ExecEnv) (address : String) (dryRun : Bool)
    (store : Store)
    (hfind : store.accounts.find? (fun a => a.address = address) = none) :
    reclaimAccount env address dryRun store =
      ({ success := false
         address := address
         mode := if dryRun then .SIMULATION else .REAL
         amount := 0
         txSignature := none
         explorerUrl := none
         message := .accountNotFound
         error := some ERR_ACCOUNT_NOT_FOUND }, store) := by
  simp only [reclaimAccount, hfind]

/-- Path lemma for `reclaimAccount`: the fresh verdict is not `ELIGIBLE`. -/
theorem reclaim_path_skip (env : ExecEnv) (address : String) (dryRun : Bool)
    (store : Store) (account : SponsoredAccount)
    (hfind : store.accounts.find? (fun a => a.address = address) = some account)
    (hne : (freshJudgment env store account).status ≠ .ELIGIBLE) :
    reclaimAccount env address dryRun store =
      ({ success := false
         address := address
         mode := if dryRun then .SIMULATION else .REAL
         amount := 0
         txSignature := none
         explorerUrl := none
         message := .cannotReclaim (freshJudgment env store account).reason
         error := some (freshJudgment env store account).status.text },
       appendLog store
         { action := .SKIP
           account := address
           amount := account.balance
           mode := if dryRun then .SIMULATION else .REAL
           reason := (freshJudgment env store account).reason
           txSignature := none }) := by
  simp only [reclaimAccount, hfind]
  rw [if_pos hne]

/-- Path lemma for `reclaimAccount`: simulated reclamation of a fresh
`ELIGIBLE` account. -/
theorem reclaim_path_simulated (env : ExecEnv) (address : String)
    (store : Store) (account : SponsoredAccount)
    (hfind : store.accounts.find? (fun a => a.address = address) = some account)
    (he : (freshJudgment env store account).status = .ELIGIBLE) :
    reclaimAccount env address true store =
      ({ success := true
         address := address
         mode := .SIMULATION
         amount := (freshJudgment env store account).potentialRecovery
         txSignature := none
         explorerUrl := none
         message := .simulationSuccess (freshJudgment env store account).potentialRecovery address
         error := none },
       appendLog store
         { action := .RECLAIM
           account := address
           amount := (freshJudgment env store account).potentialRecovery
           mode := .SIMULATION
           reason := .simulationWouldReclaim (freshJudgment env store account).potentialRecovery
           txSignature := none }) := by
  simp only [reclaimAccount, hfind]
  rw [if_neg (not_not.mpr he), if_pos trivial]

/-- Path lemma for `reclaimAccount`: real mode with no configured credential. -/
theorem reclaim_path_noKey (env : ExecEnv) (address : String)
    (store : Store) (account : SponsoredAccount)
    (hfind : store.accounts.find? (fun a => a.address = address) = some account)
    (he : (freshJudgment env store account).status = .ELIGIBLE)
    (hkey : env.operatorPrivateKey = none) :
    reclaimAccount env address false store =
      ({ success := false
         address := address
         mode := .SIMULATION
         amount := 0
         txSignature := none
         explorerUrl := none
         message := .noPrivateKeyConfigured
         error := some ERR_NO_PRIVATE_KEY }, store) := by
  simp only [reclaimAccount, hfind]
  rw [if_neg (not_not.mpr he), if_neg Bool.false_ne_true]
  simp only [hkey]

/-- Path lemma for `reclaimAccount`: the balance query fails and the
surrounding catch logs the error as a `SKIP` entry. -/
theorem reclaim_path_balanceErr (env : ExecEnv) (address : String)
    (store : Store) (account : SponsoredAccount) (k e : String)
    (hfind : store.accounts.find? (fun a => a.address = address) = some account)
    (he : (freshJudgment env store account).status = .ELIGIBLE)
    (hkey : env.operatorPrivateKey = some k)
    (hbal : env.getBalance address = .error e) :
    reclaimAccount env address false store =
      ({ success := false
         address := address
         mode := .REAL
         amount := 0
         txSignature := none
         explorerUrl := none
         message := .failedToReclaim e
         error := some e },
       appendLog store
         { action := .SKIP
           account := address
           amount := 0
           mode := .REAL
           reason := .errorText e
           txSignature := none }) := by
  simp only [reclaimAccount, hfind]
  rw [if_neg (not_not.mpr he), if_neg Bool.false_ne_true]
  simp only [hkey, hbal, if_neg Bool.false_ne_true]

/-- Path lemma for `reclaimAccount`: the account is already empty on ledger. -/
theorem reclaim_path_alreadyEmpty (env : ExecEnv) (address : String)
    (store : Store) (account : SponsoredAccount) (k : String)
    (hfind : store.accounts.find? (fun a => a.address = address) = some account)
    (he : (freshJudgment env store account).status = .ELIGIBLE)
    (hkey : env.operatorPrivateKey = some k)
    (hbal : env.getBalance address = .ok 0) :
    reclaimAccount env address false store =
      ({ success := true
         address := address
         mode := .REAL
         amount := 0
         txSignature := none
         explorerUrl := none
         message := .alreadyEmpty
         error := none },
       { store with accounts := store.accounts.map fun x =>
           if x.address = address then
             { x with status := .RECLAIMED, balance := 0 }
           else x }) := by
  simp only [reclaimAccount, hfind]
  rw [if_neg (not_not.mpr he), if_neg Bool.false_ne_true]
  simp only [hkey, hbal]
  rw [if_pos trivial]

/-- Path lemma for `reclaimAccount`: positive balance not covering the fee. -/
theorem reclaim_path_insufficient (env : ExecEnv) (address : String)
    (store : Store) (account : SponsoredAccount) (k : String) (b : ℕ)
    (hfind : store.accounts.find? (fun a => a.address = address) = some account)
    (he : (freshJudgment env store account).status = .ELIGIBLE)
    (hkey : env.operatorPrivateKey = some k)
    (hbal : env.getBalance address = .ok b)
    (hb0 : b ≠ 0)
    (hle : (b : ℤ) - (TX_FEE_LAMPORTS : ℤ) ≤ 0) :
    reclaimAccount env address false store =
      ({ success := false
         address := address
         mode := .REAL
         amount := 0
         txSignature := none
         explorerUrl := none
         message := .balanceTooLow
         error := some ERR_INSUFFICIENT_BALANCE }, store) := by
  simp only [reclaimAccount, hfind]
  rw [if_neg (not_not.mpr he), if_neg Bool.false_ne_true]
  simp only [hkey, hbal]
  rw [if_neg hb0, if_pos hle]

/-- Path lemma for `reclaimAccount`: the broadcast fails and the surrounding
catch logs the error as a `SKIP` entry. -/
theorem reclaim_path_sendErr (env : ExecEnv) (address : String)
    (store : Store) (account : SponsoredAccount) (k e : String) (b : ℕ)
    (hfind : store.accounts.find? (fun a => a.address = address) = some account)
    (he : (freshJudgment env store account).status = .ELIGIBLE)
    (hkey : env.operatorPrivateKey = some k)
    (hbal : env.getBalance address = .ok b)
    (hb0 : b ≠ 0)
    (hgt : 0 < (b : ℤ) - (TX_FEE_LAMPORTS : ℤ))
    (hsend : env.sendTransfer address env.operatorPubkey
        ((b : ℤ) - (TX_FEE_LAMPORTS : ℤ)).toNat = .error e) :
    reclaimAccount env address false store =
      ({ success := false
         address := address
         mode := .REAL
         amount := 0
         txSignature := none
         explorerUrl := none
         message := .failedToReclaim e
         error := some e },
       appendLog store
         { action := .SKIP
           account := address
           amount := 0
           mode := .REAL
           reason := .errorText e
           txSignature := none }) := by
  simp only [reclaimAccount, hfind]
  rw [if_neg (not_not.mpr he), if_neg Bool.false_ne_true]
  simp only [hkey, hbal]
  rw [if_neg hb0, if_neg (not_le.mpr hgt)]
  simp only [hsend, if_neg Bool.false_ne_true]

/-- Path lemma for `reclaimAccount`: confirmed real reclamation. -/
theorem reclaim_path_sendOk (env : ExecEnv) (address : String)
    (store : Store) (account : SponsoredAccount) (k txSig : String) (b : ℕ)
    (hfind : store.accounts.find? (fun a => a.address = address) = some account)
    (he : (freshJudgment env store account).status = .ELIGIBLE)
    (hkey : env.operatorPrivateKey = some k)
    (hbal : env.getBalance address = .ok b)
    (hb0 : b ≠ 0)
    (hgt : 0 < (b : ℤ) - (TX_FEE_LAMPORTS : ℤ))
    (hsend : env.sendTransfer address env.operatorPubkey
        ((b : ℤ) - (TX_FEE_LAMPORTS : ℤ)).toNat = .ok txSig) :
    reclaimAccount env address false store =
      ({ success := true
         address := address
         mode := .REAL
         amount := (((b : ℤ) - (TX_FEE_LAMPORTS : ℤ) : ℤ) : ℚ) / (LAMPORTS_PER_SOL : ℚ)
         txSignature := some txSig
         explorerUrl := some (getExplorerUrl txSig)
         message := .reclaimSuccess
           ((((b : ℤ) - (TX_FEE_LAMPORTS : ℤ) : ℤ) : ℚ) / (LAMPORTS_PER_SOL : ℚ)) address
         error := none },
       appendLog
         { store with accounts := store.accounts.map fun x =>
             if x.address = address then
               { x with
                 status := .RECLAIMED
                 balance := 0
                 lastActivity := env.now }
             else x }
         { action := .RECLAIM
           account := address
           amount := (((b : ℤ) - (TX_FEE_LAMPORTS : ℤ) : ℤ) : ℚ) / (LAMPORTS_PER_SOL : ℚ)
           mode := .REAL
           reason := .reclaimedSuccessfully
             ((((b : ℤ) - (TX_FEE_LAMPORTS : ℤ) : ℤ) : ℚ) / (LAMPORTS_PER_SOL : ℚ))
           txSignature := some txSig }) := by
  simp only [reclaimAccount, hfind]
  rw [if_neg (not_not.mpr he), if_neg Bool.false_ne_true]
  simp only [hkey, hbal]
  rw [if_neg hb0, if_neg (not_le.mpr hgt)]
  simp only [hsend]

/-- C1 (counterexample): an account with `balance > rentExemptMin × 1.01` for
which the Judge returns `SKIP`, not `PROTECTED` — the profit check runs first,
so the claim as stated fails. -/
theorem C1_counterexample :
    c1Account.balance > c1Account.rentExemptMin * USER_FUND_TOLERANCE ∧
    (judgeAccount c1Account settings30 [] (40 * MS_PER_DAY)).status = .SKIP ∧
    (judgeAccount c1Account settings30 [] (40 * MS_PER_DAY)).status ≠ .PROTECTED := by
  norm_num [judgeAccount, c1Account, settings30, USER_FUND_TOLERANCE, TX_FEE_SOL,
    TX_FEE_LAMPORTS, LAMPORTS_PER_SOL]
  decide

/-- C1 (amended): for every account with `balance > transactionFee` and
`balance > rentExemptMin × 1.01`, the Judge returns `PROTECTED`, independent
of the account's age (arbitrary `now`/`lastActivity`) and of whitelist
membership (arbitrary whitelist). -/
theorem C1_user_funds_check (a : SponsoredAccount) (s : JudgmentSettings)
    (w : List String) (now : ℚ)
    (hfee : TX_FEE_SOL < a.balance)
    (hfunds : a.rentExemptMin * USER_FUND_TOLERANCE < a.balance) :
    (judgeAccount a s w now).status = .PROTECTED := by
  simp only [judgeAccount]
  rw [if_neg (not_le.mpr hfee), if_pos hfunds]

/-- C1 witness: the amended theorem applied to the 1.25 SOL account, placed on
the whitelist and judged while young, still yields `PROTECTED`. -/
theorem C1_user_funds_check_witness :
    (judgeAccount c1WitnessAccount settings30 [c1WitnessAccount.address]
      (3 * MS_PER_DAY)).status = .PROTECTED :=
  C1_user_funds_check c1WitnessAccount settings30 [c1WitnessAccount.address]
    (3 * MS_PER_DAY)
    (by norm_num [c1WitnessAccount, TX_FEE_SOL, TX_FEE_LAMPORTS, LAMPORTS_PER_SOL])
    (by norm_num [c1WitnessAccount, RENT_MINIMUM, USER_FUND_TOLERANCE])

/-- C5: the profit check runs first and the whitelist check runs last: an
account with `balance ≤ transactionFee` is `SKIP` with zero potential recovery
(whitelisted or not), a whitelisted account is never `ELIGIBLE`, and a
whitelisted account passing checks 1–3 is `WHITELISTED`. -/
theorem C5_check_order (a : SponsoredAccount) (s : JudgmentSettings)
    (w : List String) (now : ℚ) :
    (a.balance ≤ TX_FEE_SOL →
      (judgeAccount a s w now).status = .SKIP ∧
      (judgeAccount a s w now).potentialRecovery = 0) ∧
    (a.address ∈ w → (judgeAccount a s w now).status ≠ .ELIGIBLE) ∧
    (a.address ∈ w → TX_FEE_SOL < a.balance →
      a.balance ≤ a.rentExemptMin * USER_FUND_TOLERANCE →
      effectiveMinAgeDays s ≤ accountAgeDays a now →
      (judgeAccount a s w now).status = .WHITELISTED) := by
  refine ⟨fun h1 => ?_, fun hw => ?_, fun hw h1 h2 h3 => ?_⟩
  · simp only [judgeAccount]
    rw [if_pos h1]
    exact ⟨rfl, rfl⟩
  · simp only [judgeAccount]
    split_ifs with hb hf ha <;> simp_all
  · simp only [judgeAccount]
    rw [if_neg (not_le.mpr h1), if_neg (not_lt.mpr h2), if_neg (not_lt.mpr h3),
      if_pos hw]

/-- C5 witness: on a whitelisted account below the fee the verdict is `SKIP`
with zero potential recovery, and it is not `ELIGIBLE`. -/
theorem C5_check_order_witness :
    (judgeAccount c5Account settings30 [c5Account.address] 0).status = .SKIP ∧
    (judgeAccount c5Account settings30 [c5Account.address] 0).potentialRecovery = 0 ∧
    (judgeAccount c5Account settings30 [c5Account.address] 0).status ≠ .ELIGIBLE := by
  obtain ⟨h1, h2, _⟩ := C5_check_order c5Account settings30 [c5Account.address] 0
  have hfee : c5Account.balance ≤ TX_FEE_SOL := by
    norm_num [c5Account, TX_FEE_SOL, TX_FEE_LAMPORTS, LAMPORTS_PER_SOL]
  have hmem : c5Account.address ∈ [c5Account.address] := by simp
  exact ⟨(h1 hfee).1, (h1 hfee).2, h2 hmem⟩

/-- Shifting the clock and the account's `lastActivity` by the same delta
leaves the account's age, hence the verdict, unchanged. -/
theorem accountAgeDays_shift (a : SponsoredAccount) (now d : ℚ) :
    accountAgeDays { a with lastActivity := a.lastActivity + d } (now + d) =
      accountAgeDays a now := by
  unfold accountAgeDays
  dsimp only
  ring_nf

/-- C6 (counterexample): two invocations of `judgeAccount` with identical
account record, identical settings and identical whitelist return different
verdicts when made at different times — `Date.now()` is a hidden fourth
input, so the function is not deterministic in its three declared inputs. -/
theorem C6_counterexample :
    judgeAccount c6Account settings30 [] (10 * MS_PER_DAY) ≠
      judgeAccount c6Account settings30 [] (40 * MS_PER_DAY) := by
  have hL : (judgeAccount c6Account settings30 [] (10 * MS_PER_DAY)).status = .ACTIVE := by
    norm_num [judgeAccount, c6Account, settings30, accountAgeDays, effectiveMinAgeDays,
      MS_PER_DAY, TX_FEE_SOL, TX_FEE_LAMPORTS, LAMPORTS_PER_SOL, USER_FUND_TOLERANCE,
      RENT_MINIMUM, DEFAULT_MIN_AGE_DAYS]
  have hR : (judgeAccount c6Account settings30 [] (40 * MS_PER_DAY)).status = .ELIGIBLE := by
    norm_num [judgeAccount, c6Account, settings30, accountAgeDays, effectiveMinAgeDays,
      MS_PER_DAY, TX_FEE_SOL, TX_FEE_LAMPORTS, LAMPORTS_PER_SOL, USER_FUND_TOLERANCE,
      RENT_MINIMUM, DEFAULT_MIN_AGE_DAYS]
  intro h
  rw [h, hR] at hL
  exact JudgmentStatus.noConfusion hL

/-- C6 (amended): `judgeAccount` is deterministic given its three inputs and
the current clock value: it depends on the whitelist only through membership
of the account's address, and on the clock only through the account's age
(invariance under equal time shifts). Invocations at different times may
differ. -/
theorem C6_determinism_with_clock (a : SponsoredAccount) (s : JudgmentSettings)
    (w₁ w₂ : List String) (now d : ℚ)
    (hmem : a.address ∈ w₁ ↔ a.address ∈ w₂) :
    judgeAccount { a with lastActivity := a.lastActivity + d } s w₁ (now + d) =
      judgeAccount a s w₂ now := by
  unfold judgeAccount
  rw [accountAgeDays_shift]
  simp only [hmem]

/-- C6 witness: the amended theorem applied concretely — judging the account
one day later, with `lastActivity` one day later, gives the same verdict. -/
theorem C6_determinism_with_clock_witness :
    judgeAccount { c6Account with lastActivity := c6Account.lastActivity + MS_PER_DAY }
        settings30 [] (40 * MS_PER_DAY + MS_PER_DAY) =
      judgeAccount c6Account settings30 [] (40 * MS_PER_DAY) :=
  C6_determinism_with_clock c6Account settings30 [] [] (40 * MS_PER_DAY)
    MS_PER_DAY Iff.rfl

/-- The dust account's fresh verdict at `now100` is `ELIGIBLE`. -/
theorem dust_fresh_eligible :
    (freshJudgment envSim storeDust dustAccount).status = .ELIGIBLE := by
  norm_num [freshJudgment, envSim, storeDust, dustAccount, storeWhitelistAddresses,
    judgeAccount, accountAgeDays, effectiveMinAgeDays, settings30, now100, MS_PER_DAY,
    TX_FEE_SOL, TX_FEE_LAMPORTS, LAMPORTS_PER_SOL, USER_FUND_TOLERANCE, RENT_MINIMUM,
    DEFAULT_MIN_AGE_DAYS]

/-- The stale account's fresh verdict at `now100` is `ACTIVE`. -/
theorem stale_fresh_active :
    (freshJudgment envSim storeStale staleAccount).status = .ACTIVE := by
  norm_num [freshJudgment, envSim, storeStale, staleAccount, storeWhitelistAddresses,
    judgeAccount, accountAgeDays, effectiveMinAgeDays, settings30, now100, MS_PER_DAY,
    TX_FEE_SOL, TX_FEE_LAMPORTS, LAMPORTS_PER_SOL, USER_FUND_TOLERANCE, RENT_MINIMUM,
    DEFAULT_MIN_AGE_DAYS]

/-- C2: when `reclaimAccount` re-runs the Judge with the current settings and
whitelist and the fresh verdict is not `ELIGIBLE`, it appends exactly one
`SKIP` Activity Log entry carrying the verdict's reason, returns failure with
the verdict's status as the error code, leaves the accounts untouched, and
appends no `RECLAIM` entry. -/
theorem C2_stale_verdict_skips (env : ExecEnv) (address : String)
    (dryRun : Bool) (store : Store) (account : SponsoredAccount)
    (hfind : store.accounts.find? (fun a => a.address = address) = some account)
    (hne : (freshJudgment env store account).status ≠ .ELIGIBLE) :
    (reclaimAccount env address dryRun store).1.success = false ∧
    (reclaimAccount env address dryRun store).1.error =
      some (freshJudgment env store account).status.text ∧
    (reclaimAccount env address dryRun store).2.activityLog =
      store.activityLog ++
        [{ action := .SKIP
           account := address
           amount := account.balance
           mode := if dryRun then .SIMULATION else .REAL
           reason := (freshJudgment env store account).reason
           txSignature := none }] ∧
    (reclaimAccount env address dryRun store).2.accounts = store.accounts ∧
    ((reclaimAccount env address dryRun store).2.activityLog.filter
        fun entry => entry.action = .RECLAIM) =
      (store.activityLog.filter fun entry => entry.action = .RECLAIM) := by
  rw [reclaim_path_skip env address dryRun store account hfind hne]
  refine ⟨rfl, rfl, rfl, rfl, ?_⟩
  simp [appendLog, List.filter_append]

/-- C2 witness: on the stale-eligible account in simulation mode the call
fails with the fresh verdict's status as error code, the accounts are
untouched and no `RECLAIM` entry is appended. -/
theorem C2_stale_verdict_skips_witness :
    (reclaimAccount envSim staleAccount.address true storeStale).1.success = false ∧
    (reclaimAccount envSim staleAccount.address true storeStale).1.error =
      some (freshJudgment envSim storeStale staleAccount).status.text ∧
    (reclaimAccount envSim staleAccount.address true storeStale).2.accounts =
      storeStale.accounts := by
  obtain ⟨h1, h2, _, h4, _⟩ :=
    C2_stale_verdict_skips envSim staleAccount.address true storeStale staleAccount
      rfl (by rw [stale_fresh_active]; decide)
  exact ⟨h1, h2, h4⟩

/-- C4: in simulation mode `reclaimAccount` never invokes the gateway's write
operation (the call is invariant under replacing `sendTransfer`), never
mutates any stored account, and on a fresh `ELIGIBLE` verdict appends one
`RECLAIM` entry in `SIMULATION` mode and returns success with the verdict's
`potentialRecovery` and no transaction identifier. -/
theorem C4_simulation_frame (env : ExecEnv) (address : String) (store : Store) :
    (∀ send', reclaimAccount { env with sendTransfer := send' } address true store =
        reclaimAccount env address true store) ∧
    (reclaimAccount env address true store).2.accounts = store.accounts ∧
    (reclaimAccount env address true store).2.whitelist = store.whitelist ∧
    (∀ account, store.accounts.find? (fun a => a.address = address) = some account →
      (freshJudgment env store account).status = .ELIGIBLE →
      (reclaimAccount env address true store).1 =
        { success := true
          address := address
          mode := .SIMULATION
          amount := (freshJudgment env store account).potentialRecovery
          txSignature := none
          explorerUrl := none
          message := .simulationSuccess (freshJudgment env store account).potentialRecovery address
          error := none } ∧
      (reclaimAccount env address true store).2 =
        appendLog store
          { action := .RECLAIM
            account := address
            amount := (freshJudgment env store account).potentialRecovery
            mode := .SIMULATION
            reason := .simulationWouldReclaim (freshJudgment env store account).potentialRecovery
            txSignature := none }) := by
  have hframe : (reclaimAccount env address true store).2.accounts = store.accounts ∧
      (reclaimAccount env address true store).2.whitelist = store.whitelist := by
    rcases hf : store.accounts.find? (fun a => a.address = address) with _ | account
    · rw [reclaim_path_notFound env address true store hf]
      exact ⟨rfl, rfl⟩
    · by_cases he : (freshJudgment env store account).status = .ELIGIBLE
      · rw [reclaim_path_simulated env address store account hf he]
        exact ⟨rfl, rfl⟩
      · rw [reclaim_path_skip env address true store account hf he]
        exact ⟨rfl, rfl⟩
  refine ⟨fun send' => rfl, hframe.1, hframe.2, fun account hfind he => ?_⟩
  rw [reclaim_path_simulated env address store account hfind he]
  exact ⟨rfl, rfl⟩

/-- C4 witness: the theorem applied to the fresh-eligible dust account:
success, amount equal to the verdict's `potentialRecovery`, no transaction
identifier, accounts untouched. -/
theorem C4_simulation_frame_witness :
    (reclaimAccount envSim dustAccount.address true storeDust).2.accounts =
      storeDust.accounts ∧
    (reclaimAccount envSim dustAccount.address true storeDust).1.success = true ∧
    (reclaimAccount envSim dustAccount.address true storeDust).1.amount =
      (freshJudgment envSim storeDust dustAccount).potentialRecovery ∧
    (reclaimAccount envSim dustAccount.address true storeDust).1.txSignature = none := by
  obtain ⟨_, hacc, _, hel⟩ := C4_simulation_frame envSim dustAccount.address storeDust
  obtain ⟨hres, _⟩ := hel dustAccount rfl dust_fresh_eligible
  exact ⟨hacc, by rw [hres], by rw [hres], by rw [hres]⟩

/-- C7 (counterexample): real-mode reclaim of a fresh-`ELIGIBLE` account with
no configured credential is a decision (failure `NO_PRIVATE_KEY`) that
appends no Activity Log entry at all — refuting "every decision produces
exactly one Activity Log entry". -/
theorem C7_counterexample :
    (reclaimAccount envSim dustAccount.address false storeDust).1.success = false ∧
    (reclaimAccount envSim dustAccount.address false storeDust).1.error =
      some ERR_NO_PRIVATE_KEY ∧
    (reclaimAccount envSim dustAccount.address false storeDust).2.activityLog =
      storeDust.activityLog := by
  rw [reclaim_path_noKey envSim dustAccount.address storeDust dustAccount rfl
    dust_fresh_eligible rfl]
  exact ⟨rfl, rfl, rfl⟩

/-- C7 (amended): every `reclaimAccount` call appends at most one Activity
Log entry.  The fresh-ineligible skip, the simulated reclaim, the caught
gateway failures and the confirmed real reclaim each append exactly one
entry carrying a reason; the account-not-found, no-private-key,
already-empty-account and insufficient-balance paths append none. -/
theorem C7_log_discipline (env : ExecEnv) (address : String) (dryRun : Bool)
    (store : Store) :
    ((reclaimAccount env address dryRun store).2.activityLog = store.activityLog ∨
      ∃ entry, (reclaimAccount env address dryRun store).2.activityLog =
        store.activityLog ++ [entry]) ∧
    (store.accounts.find? (fun a => a.address = address) = none →
      (reclaimAccount env address dryRun store).2.activityLog = store.activityLog) ∧
    (∀ account, store.accounts.find? (fun a => a.address = address) = some account →
      (freshJudgment env store account).status ≠ .ELIGIBLE →
      (reclaimAccount env address dryRun store).2.activityLog = store.activityLog ++
        [{ action := .SKIP
           account := address
           amount := account.balance
           mode := if dryRun then .SIMULATION else .REAL
           reason := (freshJudgment env store account).reason
           txSignature := none }]) ∧
    (∀ account, store.accounts.find? (fun a => a.address = address) = some account →
      (freshJudgment env store account).status = .ELIGIBLE → dryRun = true →
      (reclaimAccount env address dryRun store).2.activityLog = store.activityLog ++
        [{ action := .RECLAIM
           account := address
           amount := (freshJudgment env store account).potentialRecovery
           mode := .SIMULATION
           reason := .simulationWouldReclaim (freshJudgment env store account).potentialRecovery
           txSignature := none }]) ∧
    (∀ account, store.accounts.find? (fun a => a.address = address) = some account →
      (freshJudgment env store account).status = .ELIGIBLE → dryRun = false →
      env.operatorPrivateKey = none →
      (reclaimAccount env address dryRun store).2.activityLog = store.activityLog) ∧
    (∀ account k, store.accounts.find? (fun a => a.address = address) = some account →
      (freshJudgment env store account).status = .ELIGIBLE → dryRun = false →
      env.operatorPrivateKey = some k → env.getBalance address = .ok 0 →
      (reclaimAccount env address dryRun store).2.activityLog = store.activityLog) ∧
    (∀ account k b, store.accounts.find? (fun a => a.address = address) = some account →
      (freshJudgment env store account).status = .ELIGIBLE → dryRun = false →
      env.operatorPrivateKey = some k → env.getBalance address = .ok b → b ≠ 0 →
      (b : ℤ) - (TX_FEE_LAMPORTS : ℤ) ≤ 0 →
      (reclaimAccount env address dryRun store).2.activityLog = store.activityLog) ∧
    (∀ account k e, store.accounts.find? (fun a => a.address = address) = some account →
      (freshJudgment env store account).status = .ELIGIBLE → dryRun = false →
      env.operatorPrivateKey = some k → env.getBalance address = .error e →
      (reclaimAccount env address dryRun store).2.activityLog = store.activityLog ++
        [{ action := .SKIP
           account := address
           amount := 0
           mode := .REAL
           reason := .errorText e
           txSignature := none }]) ∧
    (∀ account k txSig b, store.accounts.find? (fun a => a.address = address) = some account →
      (freshJudgment env store account).status = .ELIGIBLE → dryRun = false →
      env.operatorPrivateKey = some k → env.getBalance address = .ok b → b ≠ 0 →
      0 < (b : ℤ) - (TX_FEE_LAMPORTS : ℤ) →
      env.sendTransfer address env.operatorPubkey
        ((b : ℤ) - (TX_FEE_LAMPORTS : ℤ)).toNat = .ok txSig →
      (reclaimAccount env address dryRun store).2.activityLog = store.activityLog ++
        [{ action := .RECLAIM
           account := address
           amount := (((b : ℤ) - (TX_FEE_LAMPORTS : ℤ) : ℤ) : ℚ) / (LAMPORTS_PER_SOL : ℚ)
           mode := .REAL
           reason := .reclaimedSuccessfully
             ((((b : ℤ) - (TX_FEE_LAMPORTS : ℤ) : ℤ) : ℚ) / (LAMPORTS_PER_SOL : ℚ))
           txSignature := some txSig }]) := by
  refine ⟨?_, ?_, ?_, ?_, ?_, ?_, ?_, ?_, ?_⟩
  · rcases hf : store.accounts.find? (fun a => a.address = address) with _ | account
    · rw [reclaim_path_notFound env address dryRun store hf]
      exact Or.inl rfl
    · by_cases he : (freshJudgment env store account).status = .ELIGIBLE
      · cases dryRun with
        | true =>
            rw [reclaim_path_simulated env address store account hf he]
            exact Or.inr ⟨_, rfl⟩
        | false =>
            rcases hkey : env.operatorPrivateKey with _ | k
            · rw [reclaim_path_noKey env address store account hf he hkey]
              exact Or.inl rfl
            · rcases hbal : env.getBalance address with e | b
              · rw [reclaim_path_balanceErr env address store account k e hf he hkey hbal]
                exact Or.inr ⟨_, rfl⟩
              · by_cases hb0 : b = 0
                · subst hb0
                  rw [reclaim_path_alreadyEmpty env address store account k hf he hkey hbal]
                  exact Or.inl rfl
                · by_cases hle : (b : ℤ) - (TX_FEE_LAMPORTS : ℤ) ≤ 0
                  · rw [reclaim_path_insufficient env address store account k b hf he
                      hkey hbal hb0 hle]
                    exact Or.inl rfl
                  · rcases hsend : env.sendTransfer address env.operatorPubkey
                        ((b : ℤ) - (TX_FEE_LAMPORTS : ℤ)).toNat with e | sig
                    · rw [reclaim_path_sendErr env address store account k e b hf he
                        hkey hbal hb0 (not_le.mp hle) hsend]
                      exact Or.inr ⟨_, rfl⟩
                    · rw [reclaim_path_sendOk env address store account k sig b hf he
                        hkey hbal hb0 (not_le.mp hle) hsend]
                      exact Or.inr ⟨_, rfl⟩
      · rw [reclaim_path_skip env address dryRun store account hf he]
        exact Or.inr ⟨_, rfl⟩
  · intro hf
    rw [reclaim_path_notFound env address dryRun store hf]
  · intro account hfind hne
    rw [reclaim_path_skip env address dryRun store account hfind hne]
    rfl
  · intro account hfind he hdr
    subst hdr
    rw [reclaim_path_simulated env address store account hfind he]
    rfl
  · intro account hfind he hdr hkey
    subst hdr
    rw [reclaim_path_noKey env address store account hfind he hkey]
  · intro account k hfind he hdr hkey hbal
    subst hdr
    rw [reclaim_path_alreadyEmpty env address store account k hfind he hkey hbal]
  · intro account k b hfind he hdr hkey hbal hb0 hle
    subst hdr
    rw [reclaim_path_insufficient env address store account k b hfind he hkey hbal hb0 hle]
  · intro account k e hfind he hdr hkey hbal
    subst hdr
    rw [reclaim_path_balanceErr env address store account k e hfind he hkey hbal]
    rfl
  · intro account k txSig b hfind he hdr hkey hbal hb0 hgt hsend
    subst hdr
    rw [reclaim_path_sendOk env address store account k txSig b hfind he hkey hbal hb0
      hgt hsend]
    rfl

/-- C7 witness: the amended theorem applied to the fresh-eligible dust
account in simulation mode — exactly one `RECLAIM` entry appended. -/
theorem C7_log_discipline_witness :
    (reclaimAccount envSim dustAccount.address true storeDust).2.activityLog =
      storeDust.activityLog ++
        [{ action := .RECLAIM
           account := dustAccount.address
           amount := (freshJudgment envSim storeDust dustAccount).potentialRecovery
           mode := .SIMULATION
           reason := .simulationWouldReclaim
             (freshJudgment envSim storeDust dustAccount).potentialRecovery
           txSignature := none }] := by
  obtain ⟨_, _, _, hD, _⟩ :=
    C7_log_discipline envSim dustAccount.address true storeDust
  exact hD dustAccount rfl dust_fresh_eligible rfl

/-- With unique addresses, two stored records sharing an address coincide. -/
theorem eq_of_address_eq (l : List SponsoredAccount)
    (hnodup : (l.map fun a => a.address).Nodup)
    {x y : SponsoredAccount} (hx : x ∈ l) (hy : y ∈ l)
    (hxy : x.address = y.address) : x = y :=
  List.inj_on_of_nodup_map hnodup hx hy hxy

/-- With unique addresses, `find?` by a member's address returns exactly that
member. -/
theorem find?_self_of_mem_nodup :
    ∀ (l : List SponsoredAccount),
      (l.map fun a => a.address).Nodup →
      ∀ a ∈ l, l.find? (fun x => x.address = a.address) = some a := by
  intro l
  induction l with
  | nil => intro _ a ha; cases ha
  | cons b t ih =>
      intro hnodup a ha
      rcases List.mem_cons.mp ha with rfl | hat
      · rw [List.find?_cons_of_pos]
        simp
      · have hb : b.address ≠ a.address := by
          intro hcon
          have hmem : a.address ∈ t.map fun x => x.address :=
            List.mem_map_of_mem _ hat
          rw [List.map_cons, List.nodup_cons] at hnodup
          exact hnodup.1 (hcon ▸ hmem)
        rw [List.find?_cons_of_neg]
        · exact ih (by rw [List.map_cons, List.nodup_cons] at hnodup; exact hnodup.2) a hat
        · simp [hb]

/-- C9: the Scanner's reconciliation of a discovered account.  For an
existing record only `balance` and `lastActivity` are updated and the status
is preserved unless the current balance is exactly zero, in which case it
becomes `RECLAIMED`; for a new record the initial status is `RECLAIMED` on a
zero or absent balance, `PROTECTED` when the balance exceeds
`rentExemptMin × 1.5`, and `ACTIVE` otherwise. -/
theorem C9_scanner_reconcile (now : ℚ) (d : DiscoveredAccount)
    (cs : AccountCurrentState) (store : Store)
    (hnodup : (store.accounts.map fun a => a.address).Nodup) :
    (∀ e, store.accounts.find? (fun a => a.address = d.address) = some e →
      (reconcileDiscoveredAccount now d cs store).accounts =
        store.accounts.map fun x =>
          if x.address = d.address then
            { x with
              balance := cs.balance
              lastActivity := now
              status := if cs.balance = 0 then .RECLAIMED else x.status }
          else x) ∧
    (store.accounts.find? (fun a => a.address = d.address) = none →
      ∃ r, (reconcileDiscoveredAccount now d cs store).accounts =
          store.accounts ++ [r] ∧
        r.address = d.address ∧ r.balance = cs.balance ∧
        r.rentExemptMin = cs.rentExemptMin ∧ r.lastActivity = d.createdAt ∧
        r.detectedAt = now ∧
        ((cs.existsOnChain = false ∨ cs.balance = 0) → r.status = .RECLAIMED) ∧
        (cs.existsOnChain = true → cs.balance ≠ 0 →
          cs.rentExemptMin * (3 / 2) < cs.balance → r.status = .PROTECTED) ∧
        (cs.existsOnChain = true → cs.balance ≠ 0 →
          cs.balance ≤ cs.rentExemptMin * (3 / 2) → r.status = .ACTIVE)) := by
  constructor
  · intro e hfind
    have he_mem : e ∈ store.accounts := List.mem_of_find?_eq_some hfind
    have he_addr : e.address = d.address := by
      have := List.find?_some hfind
      exact of_decide_eq_true this
    simp only [reconcileDiscoveredAccount, hfind]
    refine List.map_congr_left fun x hx => ?_
    by_cases hxd : x.address = d.address
    · have hxe : x = e :=
        eq_of_address_eq store.accounts hnodup hx he_mem (hxd.trans he_addr.symm)
      rw [if_pos hxd, if_pos hxd, hxe]
    · rw [if_neg hxd, if_neg hxd]
  · intro hfind
    simp only [reconcileDiscoveredAccount, hfind]
    refine ⟨_, rfl, rfl, rfl, rfl, rfl, rfl, ?_, ?_, ?_⟩
    · intro h
      unfold determineInitialStatus
      rw [if_pos h]
    · intro h1 h2 h3
      unfold determineInitialStatus
      rw [if_neg (by simp [h1, h2]), if_pos h3]
    · intro h1 h2 h3
      unfold determineInitialStatus
      rw [if_neg (by simp [h1, h2]), if_neg (not_lt.mpr h3)]

/-- C9 witness: reconciling the dust-account discovery against a closed
on-ledger state updates the record in place and promotes it to `RECLAIMED`. -/
theorem C9_scanner_reconcile_witness :
    (reconcileDiscoveredAccount now100 discoveredDust curStateZero storeDust).accounts =
      storeDust.accounts.map fun x =>
        if x.address = discoveredDust.address then
          { x with
            balance := curStateZero.balance
            lastActivity := now100
            status := if curStateZero.balance = 0 then .RECLAIMED else x.status }
        else x :=
  (C9_scanner_reconcile now100 discoveredDust curStateZero storeDust
    (by simp [storeDust])).1 dustAccount rfl

/-- Batch loop invariant, all-eligible simulation case: when every listed
account is stored (unique addresses) and fresh-eligible, each sequential
`reclaimAccount` succeeds with the verdict's `potentialRecovery`, leaving
accounts and whitelist untouched. -/
theorem batch_sim_all_eligible (env : ExecEnv) :
    ∀ (l : List SponsoredAccount) (st : BatchState),
      ((st.store.accounts.map fun a => a.address).Nodup) →
      (∀ a ∈ l, a ∈ st.store.accounts) →
      (∀ a ∈ l, (freshJudgment env st.store a).status = .ELIGIBLE) →
      (reclaimBatchGo env true l st).store.accounts = st.store.accounts ∧
      (reclaimBatchGo env true l st).store.whitelist = st.store.whitelist ∧
      (reclaimBatchGo env true l st).successful = st.successful + l.length ∧
      (reclaimBatchGo env true l st).failed = st.failed ∧
      (reclaimBatchGo env true l st).totalReclaimed =
        st.totalReclaimed +
          (l.map fun a => (freshJudgment env st.store a).potentialRecovery).sum := by
  intro l
  induction l with
  | nil =>
      intro st _ _ _
      simp [reclaimBatchGo]
  | cons a t ih =>
      intro st hnodup hmem helig
      have hfind : st.store.accounts.find? (fun x => x.address = a.address) = some a :=
        find?_self_of_mem_nodup _ hnodup a (hmem a (List.mem_cons_self a t))
      have he : (freshJudgment env st.store a).status = .ELIGIBLE :=
        helig a (List.mem_cons_self a t)
      simp only [reclaimBatchGo, reclaim_path_simulated env a.address st.store a hfind he,
        if_true]
      obtain ⟨h1, h2, h3, h4, h5⟩ := ih
        { store := appendLog st.store
            { action := .RECLAIM
              account := a.address
              amount := (freshJudgment env st.store a).potentialRecovery
              mode := .SIMULATION
              reason := .simulationWouldReclaim (freshJudgment env st.store a).potentialRecovery
              txSignature := none }
          results := st.results ++
            [{ success := true
               address := a.address
               mode := .SIMULATION
               amount := (freshJudgment env st.store a).potentialRecovery
               txSignature := none
               explorerUrl := none
               message := .simulationSuccess (freshJudgment env st.store a).potentialRecovery a.address
               error := none }]
          successful := st.successful + 1
          failed := st.failed
          totalReclaimed := st.totalReclaimed + (freshJudgment env st.store a).potentialRecovery }
        hnodup (fun x hx => hmem x (List.mem_cons_of_mem a hx))
        (fun x hx => helig x (List.mem_cons_of_mem a hx))
      refine ⟨h1, h2, ?_, h4, ?_⟩
      · rw [h3]
        simp only [List.length_cons]
        omega
      · refine Eq.trans h5 ?_
        show st.totalReclaimed + (freshJudgment env st.store a).potentialRecovery +
            (t.map fun x => (freshJudgment env st.store x).potentialRecovery).sum =
          st.totalReclaimed +
            ((a :: t).map fun x => (freshJudgment env st.store x).potentialRecovery).sum
        rw [List.map_cons, List.sum_cons]
        ring

/-- Batch loop invariant, none-eligible simulation case: every listed stored
account whose fresh verdict is not `ELIGIBLE` fails, and the batch
continues through all of them. -/
theorem batch_sim_none_eligible (env : ExecEnv) :
    ∀ (l : List SponsoredAccount) (st : BatchState),
      ((st.store.accounts.map fun a => a.address).Nodup) →
      (∀ a ∈ l, a ∈ st.store.accounts) →
      (∀ a ∈ l, (freshJudgment env st.store a).status ≠ .ELIGIBLE) →
      (reclaimBatchGo env true l st).store.accounts = st.store.accounts ∧
      (reclaimBatchGo env true l st).store.whitelist = st.store.whitelist ∧
      (reclaimBatchGo env true l st).successful = st.successful ∧
      (reclaimBatchGo env true l st).failed = st.failed + l.length := by
  intro l
  induction l with
  | nil =>
      intro st _ _ _
      simp [reclaimBatchGo]
  | cons a t ih =>
      intro st hnodup hmem hne
      have hfind : st.store.accounts.find? (fun x => x.address = a.address) = some a :=
        find?_self_of_mem_nodup _ hnodup a (hmem a (List.mem_cons_self a t))
      have ha : (freshJudgment env st.store a).status ≠ .ELIGIBLE :=
        hne a (List.mem_cons_self a t)
      simp only [reclaimBatchGo, reclaim_path_skip env a.address true st.store a hfind ha,
        if_true, Bool.false_eq_true, if_false]
      obtain ⟨h1, h2, h3, h4⟩ := ih
        { store := appendLog st.store
            { action := .SKIP
              account := a.address
              amount := a.balance
              mode := .SIMULATION
              reason := (freshJudgment env st.store a).reason
              txSignature := none }
          results := st.results ++
            [{ success := false
               address := a.address
               mode := .SIMULATION
               amount := 0
               txSignature := none
               explorerUrl := none
               message := .cannotReclaim (freshJudgment env st.store a).reason
               error := some (freshJudgment env st.store a).status.text }]
          successful := st.successful
          failed := st.failed + 1
          totalReclaimed := st.totalReclaimed }
        hnodup (fun x hx => hmem x (List.mem_cons_of_mem a hx))
        (fun x hx => hne x (List.mem_cons_of_mem a hx))
      refine ⟨h1, h2, h3, ?_⟩
      rw [h4]
      simp only [List.length_cons]
      omega

/-- Each batch-scenario dust account is fresh-eligible at `now100`. -/
theorem dust9_fresh_eligible (addr : String) :
    (freshJudgment envSim store9 (dust9 addr)).status = .ELIGIBLE := by
  norm_num [freshJudgment, envSim, store9, dust9, storeWhitelistAddresses,
    judgeAccount, accountAgeDays, effectiveMinAgeDays, settings30, now100, MS_PER_DAY,
    TX_FEE_SOL, TX_FEE_LAMPORTS, LAMPORTS_PER_SOL, USER_FUND_TOLERANCE, RENT_MINIMUM,
    DEFAULT_MIN_AGE_DAYS]

/-- Each stale-scenario account's fresh verdict is not `ELIGIBLE`. -/
theorem stale9_fresh_not_eligible (addr : String) :
    (freshJudgment envSim store9stale (stale9 addr)).status ≠ .ELIGIBLE := by
  have h : (freshJudgment envSim store9stale (stale9 addr)).status = .ACTIVE := by
    norm_num [freshJudgment, envSim, store9stale, stale9, storeWhitelistAddresses,
      judgeAccount, accountAgeDays, effectiveMinAgeDays, settings30, now100, MS_PER_DAY,
      TX_FEE_SOL, TX_FEE_LAMPORTS, LAMPORTS_PER_SOL, USER_FUND_TOLERANCE, RENT_MINIMUM,
      DEFAULT_MIN_AGE_DAYS]
  rw [h]
  decide

/-- C8 (counterexample): a store with exactly nine stored-`ELIGIBLE` accounts
whose fresh verdicts are all stale (`ACTIVE`) — batch simulation returns
`successful = 0` and `failed = 9`, refuting the claim that stored status
alone guarantees `successful = 9, failed = 0`.  (The batch still processes
all nine: no failure aborts it.) -/
theorem C8_counterexample :
    (eligibleStoredAccounts store9stale).length = 9 ∧
    (reclaimAllEligible envSim true store9stale).1.successful = 0 ∧
    (reclaimAllEligible envSim true store9stale).1.failed = 9 := by
  have hne : ∀ a ∈ eligibleStoredAccounts store9stale,
      (freshJudgment envSim store9stale a).status ≠ .ELIGIBLE := by
    intro a ha
    obtain ⟨addr, _, rfl⟩ := List.mem_map.mp (List.mem_of_mem_filter ha)
    exact stale9_fresh_not_eligible addr
  obtain ⟨_, _, h3, h4⟩ := batch_sim_none_eligible envSim
    (eligibleStoredAccounts store9stale)
    { store := store9stale, results := [], successful := 0, failed := 0, totalReclaimed := 0 }
    (by decide) (fun a ha => List.mem_of_mem_filter ha) hne
  refine ⟨rfl, ?_, ?_⟩
  · simp only [reclaimAllEligible]
    rw [h3]
  · simp only [reclaimAllEligible]
    rw [h4]
    rfl

/-- C8 (amended): for every store with exactly nine stored-`ELIGIBLE`
records (unique addresses) whose fresh Judge verdicts under the current
settings, whitelist and clock are all `ELIGIBLE`, batch reclaim in
simulation mode invokes `reclaimAccount` sequentially on each and returns
`total = 9`, `successful = 9`, `failed = 0` and `totalReclaimed` equal to
the sum of the fresh verdicts' `potentialRecovery`, leaving the stored
accounts untouched. -/
theorem C8_batch_nine (env : ExecEnv) (store : Store)
    (hnodup : (store.accounts.map fun a => a.address).Nodup)
    (hlen : (eligibleStoredAccounts store).length = 9)
    (helig : ∀ a ∈ eligibleStoredAccounts store,
      (freshJudgment env store a).status = .ELIGIBLE) :
    (reclaimAllEligible env true store).1.total = 9 ∧
    (reclaimAllEligible env true store).1.successful = 9 ∧
    (reclaimAllEligible env true store).1.failed = 0 ∧
    (reclaimAllEligible env true store).1.totalReclaimed =
      ((eligibleStoredAccounts store).map fun a =>
        (freshJudgment env store a).potentialRecovery).sum ∧
    (reclaimAllEligible env true store).2.accounts = store.accounts := by
  obtain ⟨h1, _, h3, h4, h5⟩ := batch_sim_all_eligible env
    (eligibleStoredAccounts store)
    { store := store, results := [], successful := 0, failed := 0, totalReclaimed := 0 }
    hnodup (fun a ha => List.mem_of_mem_filter ha) helig
  refine ⟨?_, ?_, ?_, ?_, ?_⟩
  · simp only [reclaimAllEligible]
    exact hlen
  · simp only [reclaimAllEligible]
    rw [h3, hlen]
  · simp only [reclaimAllEligible]
    rw [h4]
  · simp only [reclaimAllEligible]
    rw [h5]
    exact zero_add _
  · simp only [reclaimAllEligible]
    exact h1

/-- C8 witness: the amended theorem applied to the nine fresh-eligible dust
accounts. -/
theorem C8_batch_nine_witness :
    (reclaimAllEligible envSim true store9).1.total = 9 ∧
    (reclaimAllEligible envSim true store9).1.successful = 9 ∧
    (reclaimAllEligible envSim true store9).1.failed = 0 ∧
    (reclaimAllEligible envSim true store9).1.totalReclaimed =
      ((eligibleStoredAccounts store9).map fun a =>
        (freshJudgment envSim store9 a).potentialRecovery).sum := by
  have helig : ∀ a ∈ eligibleStoredAccounts store9,
      (freshJudgment envSim store9 a).status = .ELIGIBLE := by
    intro a ha
    obtain ⟨addr, _, rfl⟩ := List.mem_map.mp (List.mem_of_mem_filter ha)
    exact dust9_fresh_eligible addr
  obtain ⟨h1, h2, h3, h4, _⟩ := C8_batch_nine envSim store9 (by decide) rfl helig
  exact ⟨h1, h2, h3, h4⟩

/-- `judgeAllGo` never touches a record at an address absent from its work
list; a fully-`RECLAIMED` address stays `RECLAIMED`. -/
theorem judgeAllGo_reclaimedAt (settings : JudgmentSettings)
    (whitelist : List String) (now : ℚ) :
    ∀ (l : List SponsoredAccount) (store : Store) (res : JudgeAllCounts)
      (addr : String),
      ReclaimedAt addr store → (∀ a ∈ l, a.address ≠ addr) →
      ReclaimedAt addr (judgeAllGo settings whitelist now l store res).1 := by
  intro l
  induction l with
  | nil =>
      intro store res addr h _
      simpa [judgeAllGo] using h
  | cons a t ih =>
      intro store res addr h hl
      simp only [judgeAllGo]
      apply ih
      · intro x hx hxaddr
        simp only [updateAccountStatus, List.mem_map] at hx
        obtain ⟨y, hy, rfl⟩ := hx
        by_cases hya : y.address = a.address
        · rw [if_pos hya] at hxaddr
          have hya' : y.address = addr := by simpa using hxaddr
          exact absurd (hya'.symm.trans hya).symm (hl a (List.mem_cons_self a t))
        · rw [if_neg hya] at hxaddr ⊢
          exact h y hy hxaddr
      · intro x hx
        exact hl x (List.mem_cons_of_mem a hx)

/-- `reclaimAccount` only ever writes the status `RECLAIMED`: an address all
of whose records are `RECLAIMED` stays that way on every path. -/
theorem reclaimAccount_reclaimedAt (env : ExecEnv) (tAddr : String)
    (dryRun : Bool) (store : Store) (addr : String)
    (h : ReclaimedAt addr store) :
    ReclaimedAt addr (reclaimAccount env tAddr dryRun store).2 := by
  rcases hf : store.accounts.find? (fun a => a.address = tAddr) with _ | account
  · rw [reclaim_path_notFound env tAddr dryRun store hf]
    exact h
  · by_cases he : (freshJudgment env store account).status = .ELIGIBLE
    · cases dryRun with
      | true =>
          rw [reclaim_path_simulated env tAddr store account hf he]
          exact h
      | false =>
          rcases hkey : env.operatorPrivateKey with _ | k
          · rw [reclaim_path_noKey env tAddr store account hf he hkey]
            exact h
          · rcases hbal : env.getBalance tAddr with e | b
            · rw [reclaim_path_balanceErr env tAddr store account k e hf he hkey hbal]
              exact h
            · by_cases hb0 : b = 0
              · subst hb0
                rw [reclaim_path_alreadyEmpty env tAddr store account k hf he hkey hbal]
                intro x hx hxaddr
                simp only [List.mem_map] at hx
                obtain ⟨y, hy, rfl⟩ := hx
                by_cases hyt : y.address = tAddr
                · rw [if_pos hyt]
                · rw [if_neg hyt] at hxaddr ⊢
                  exact h y hy hxaddr
              · by_cases hle : (b : ℤ) - (TX_FEE_LAMPORTS : ℤ) ≤ 0
                · rw [reclaim_path_insufficient env tAddr store account k b hf he
                    hkey hbal hb0 hle]
                  exact h
                · rcases hsend : env.sendTransfer tAddr env.operatorPubkey
                      ((b : ℤ) - (TX_FEE_LAMPORTS : ℤ)).toNat with e | sig
                  · rw [reclaim_path_sendErr env tAddr store account k e b hf he
                      hkey hbal hb0 (not_le.mp hle) hsend]
                    exact h
                  · rw [reclaim_path_sendOk env tAddr store account k sig b hf he
                      hkey hbal hb0 (not_le.mp hle) hsend]
                    intro x hx hxaddr
                    simp only [appendLog, List.mem_map] at hx
                    obtain ⟨y, hy, rfl⟩ := hx
                    by_cases hyt : y.address = tAddr
                    · rw [if_pos hyt]
                    · rw [if_neg hyt] at hxaddr ⊢
                      exact h y hy hxaddr
    · rw [reclaim_path_skip env tAddr dryRun store account hf he]
      exact h

/-- The batch loop preserves a fully-`RECLAIMED` address. -/
theorem reclaimBatchGo_reclaimedAt (env : ExecEnv) (dryRun : Bool) :
    ∀ (l : List SponsoredAccount) (st : BatchState) (addr : String),
      ReclaimedAt addr st.store →
      ReclaimedAt addr (reclaimBatchGo env dryRun l st).store := by
  intro l
  induction l with
  | nil =>
      intro st addr h
      simpa [reclaimBatchGo] using h
  | cons a t ih =>
      intro st addr h
      simp only [reclaimBatchGo]
      by_cases hs : (reclaimAccount env a.address dryRun st.store).1.success = true
      · rw [if_pos hs]
        exact ih _ addr (reclaimAccount_reclaimedAt env a.address dryRun st.store addr h)
      · rw [if_neg hs]
        exact ih _ addr (reclaimAccount_reclaimedAt env a.address dryRun st.store addr h)

/-- Scanner reconciliation preserves a fully-`RECLAIMED` address (which, the
address being stored, can only take the update path, and the update writes
`RECLAIMED` or the found record's own status). -/
theorem reconcile_reclaimedAt (now' : ℚ) (d : DiscoveredAccount)
    (cs : AccountCurrentState) (store : Store) (addr : String)
    (h : ReclaimedAt addr store)
    (hexists : ∃ a ∈ store.accounts, a.address = addr) :
    ReclaimedAt addr (reconcileDiscoveredAccount now' d cs store) := by
  rcases hf : store.accounts.find? (fun a => a.address = d.address) with _ | e
  · simp only [reconcileDiscoveredAccount, hf]
    intro x hx hxaddr
    rcases List.mem_append.mp hx with hx' | hx'
    · exact h x hx' hxaddr
    · have hxd : x.address = d.address := by
        have hx'' : x = { address := d.address
                          balance := cs.balance
                          rentExemptMin := cs.rentExemptMin
                          lastActivity := d.createdAt
                          status := determineInitialStatus cs
                          detectedAt := now' } := by
          simpa using hx'
        rw [hx'']
      obtain ⟨a, ha, haaddr⟩ := hexists
      have hnotd : ¬(a.address = d.address) := by
        have hnone := List.find?_eq_none.mp hf a ha
        simpa using hnone
      rw [hxd] at hxaddr
      exact absurd (haaddr.trans hxaddr.symm) hnotd
  · have he_mem : e ∈ store.accounts := List.mem_of_find?_eq_some hf
    have he_addr : e.address = d.address := by
      have hp := List.find?_some hf
      exact of_decide_eq_true hp
    simp only [reconcileDiscoveredAccount, hf]
    intro x hx hxaddr
    simp only [List.mem_map] at hx
    obtain ⟨y, hy, rfl⟩ := hx
    by_cases hyd : y.address = d.address
    · rw [if_pos hyd] at hxaddr ⊢
      have hda : d.address = addr := by
        have : y.address = addr := by simpa using hxaddr
        exact hyd.symm.trans this
      have hes : e.status = .RECLAIMED := h e he_mem (he_addr.trans hda)
      show (if cs.balance = 0 then AccountStatus.RECLAIMED else e.status) = .RECLAIMED
      by_cases hb : cs.balance = 0
      · rw [if_pos hb]
      · rw [if_neg hb]
        exact hes
    · rw [if_neg hyd] at hxaddr ⊢
      exact h y hy hxaddr

/-- C3 (counterexample): `addToWhitelist` reverts a terminal `RECLAIMED`
status to `WHITELISTED`, refuting the claim that no listed operation changes
a `RECLAIMED` status. -/
theorem C3_counterexample :
    reclaimedAccount.status = .RECLAIMED ∧
    ReclaimedAt reclaimedAccount.address storeReclaimed ∧
    ¬ ReclaimedAt reclaimedAccount.address
        (addToWhitelist reclaimedAccount.address none storeReclaimed) := by
  refine ⟨rfl, ?_, ?_⟩
  · intro x hx hxaddr
    have hx' : x = reclaimedAccount := by simpa [storeReclaimed] using hx
    rw [hx']
    rfl
  · intro hcon
    have hacc : (addToWhitelist reclaimedAccount.address none storeReclaimed).accounts =
        [{ reclaimedAccount with status := .WHITELISTED }] := by
      simp [addToWhitelist, storeReclaimed]
    have hbad := hcon { reclaimedAccount with status := .WHITELISTED }
      (by rw [hacc]; exact List.mem_singleton_self _) rfl
    exact absurd hbad (by decide)

/-- C3 (amended): once an account's stored status is `RECLAIMED`
(its address carrying only `RECLAIMED` records), `judgeAllAccounts` and
`getEligibleAccounts` exclude it from Judge evaluation, `reclaimAllEligible`
excludes it from the batch snapshot, and the Scanner update, `judgeAllAccounts`,
`reclaimAccount` and `reclaimAllEligible` never change that status to any
other value.  (`addToWhitelist`, by contrast, overwrites it — see the
counterexample — and `reclaimAccount` called directly on the address still
re-runs the Judge on the record.) -/
theorem C3_reclaimed_terminal (settings : JudgmentSettings) (now : ℚ)
    (env : ExecEnv) (store : Store) (a : SponsoredAccount)
    (hmem : a ∈ store.accounts) (_hst : a.status = .RECLAIMED)
    (hrec : ReclaimedAt a.address store) :
    (∀ x ∈ nonReclaimedAccounts store, x.address ≠ a.address) ∧
    (∀ x ∈ eligibleStoredAccounts store, x.address ≠ a.address) ∧
    ReclaimedAt a.address (judgeAllAccounts settings now store).1 ∧
    (∀ tAddr dryRun, ReclaimedAt a.address (reclaimAccount env tAddr dryRun store).2) ∧
    (∀ dryRun, ReclaimedAt a.address (reclaimAllEligible env dryRun store).2) ∧
    (∀ now' d cs, ReclaimedAt a.address (reconcileDiscoveredAccount now' d cs store)) := by
  have hne : ∀ x ∈ nonReclaimedAccounts store, x.address ≠ a.address := by
    intro x hx hcon
    have hx' : x ∈ store.accounts := List.mem_of_mem_filter hx
    have hxr : x.status = .RECLAIMED := hrec x hx' hcon
    have hp := List.of_mem_filter hx
    rw [hxr] at hp
    simp at hp
  have helig : ∀ x ∈ eligibleStoredAccounts store, x.address ≠ a.address := by
    intro x hx hcon
    have hx' : x ∈ store.accounts := List.mem_of_mem_filter hx
    have hxr : x.status = .RECLAIMED := hrec x hx' hcon
    have hp := List.of_mem_filter hx
    rw [hxr] at hp
    simp at hp
  refine ⟨hne, helig, ?_, ?_, ?_, ?_⟩
  · simp only [judgeAllAccounts]
    exact judgeAllGo_reclaimedAt settings (storeWhitelistAddresses store) now
      (nonReclaimedAccounts store) store _ a.address hrec hne
  · intro tAddr dryRun
    exact reclaimAccount_reclaimedAt env tAddr dryRun store a.address hrec
  · intro dryRun
    simp only [reclaimAllEligible]
    exact reclaimBatchGo_reclaimedAt env dryRun (eligibleStoredAccounts store)
      { store := store, results := [], successful := 0, failed := 0, totalReclaimed := 0 }
      a.address hrec
  · intro now' d cs
    exact reconcile_reclaimedAt now' d cs store a.address hrec ⟨a, hmem, rfl⟩

/-- C3 witness: the amended theorem applied to the reclaimed account's store:
batch re-judging and a direct reclaim attempt leave the status `RECLAIMED`. -/
theorem C3_reclaimed_terminal_witness :
    ReclaimedAt reclaimedAccount.address
      (judgeAllAccounts settings30 now100 storeReclaimed).1 ∧
    ReclaimedAt reclaimedAccount.address
      (reclaimAccount envSim reclaimedAccount.address true storeReclaimed).2 := by
  obtain ⟨_, _, h3, h4, _, _⟩ :=
    C3_reclaimed_terminal settings30 now100 envSim storeReclaimed reclaimedAccount
      (by simp [storeReclaimed]) rfl
      (by intro x hx hxaddr
          have hx' : x = reclaimedAccount := by simpa [storeReclaimed] using hx
          rw [hx']
          rfl)
  exact ⟨h3, h4 reclaimedAccount.address true⟩

/-- C10: a configured `minAgeDays` of 0 is falsy in JavaScript, so
`settings.minAgeDays || DEFAULT_MIN_AGE_DAYS` silently substitutes the 30-day
default: the Judge behaves identically under `minAgeDays = 0` and
`minAgeDays = 30`, so a zero-day idle threshold cannot take effect. -/
theorem C10_zero_min_age_defaults (a : SponsoredAccount)
    (w : List String) (now : ℚ) (d : Bool) :
    judgeAccount a { minAgeDays := 0, dryRunMode := d } w now =
      judgeAccount a { minAgeDays := 30, dryRunMode := d } w now := by
  unfold judgeAccount
  rw [show effectiveMinAgeDays { minAgeDays := 0, dryRunMode := d } =
      effectiveMinAgeDays { minAgeDays := 30, dryRunMode := d } from by
    unfold effectiveMinAgeDays DEFAULT_MIN_AGE_DAYS
    norm_num]

end Flux
